import Mathlib

/-!
Verification development for the 511 Transit integration
(`custom_components/transit_511`).

The development shallowly embeds the pure core of the integration:
  * `const.py`: the vehicle-type classifier `get_vehicle_type`;
  * `api.py`: the outcome classification of `Transit511ApiClient._make_request`;
  * `__init__.py`: the shared-coordinator registry logic of `async_setup_entry`
    and `async_unload_entry`, the tick bodies
    `GlobalStopCoordinator._async_update_data` and
    `Transit511VehicleCoordinator._async_update_data`, and the per-device
    projection `StopDeviceCoordinator._filter_data`.

JSON-decoded Python values are modelled by the inductive `PyVal`; string
operations used by the source (upper/lower-casing, `startswith`, substring
membership, `isdigit`, `strip`) are modelled over the character list of the
string, which keeps every definition kernel-evaluable.
-/

/-- A JSON-decoded Python value, as produced by `json.loads` in `api.py`:
`None`, booleans, strings, lists and string-keyed dictionaries.  (Numbers do
not occur in any field the embedded code inspects; they would play the same
role as `pystr` in every theorem below.) -/
inductive PyVal where
  | pynone
  | pybool (b : Bool)
  | pystr (s : String)
  | pylist (xs : List PyVal)
  | pydict (kvs : List (String × PyVal))

/-- Python truthiness (`if value:`) for the modelled values: `None` and empty
strings/lists/dicts are falsy. -/
def pyTruthy : PyVal → Bool
  | PyVal.pynone => false
  | PyVal.pybool b => b
  | PyVal.pystr s => !(s == "")
  | PyVal.pylist xs => !xs.isEmpty
  | PyVal.pydict kvs => !kvs.isEmpty

/-- Whether a `PyVal` is a Python list (`isinstance(value, list)`). -/
def pyIsList : PyVal → Bool
  | PyVal.pylist _ => true
  | _ => false

/-- First binding of a key in an association list (Python `dict` lookup; the
JSON decoder never produces duplicate keys, and insertion below only ever adds
an absent key, so first-match agrees with `dict` semantics). -/
def lookupKV {α : Type} : List (String × α) → String → Option α
  | [], _ => Option.none
  | (k, v) :: rest, key => if k == key then some v else lookupKV rest key

/-- Model of `value.get(key)` — `None` (here `Option.none`) when absent.  In Python a
`.get` on a non-mapping raises; every receiver in the embedded code paths is a
mapping or the `{}` default, so the non-dict case returning `none` is
unreachable there. -/
def pyGet (v : PyVal) (key : String) : Option PyVal :=
  match v with
  | PyVal.pydict kvs => lookupKV kvs key
  | _ => Option.none

/-- Model of `value.get(key, default)`. -/
def pyGetD (v : PyVal) (key : String) (dflt : PyVal) : PyVal :=
  (pyGet v key).getD dflt

/-- The record-normalisation idiom shared by both coordinators
(`__init__.py` lines 313–315 and 519–521):

    if not isinstance(xs, list):
        xs = [xs] if xs else []
-/
def normalize_records (v : PyVal) : List PyVal :=
  match v with
  | PyVal.pylist xs => xs
  | v => if pyTruthy v then [v] else []

/- String helpers, over `String.data` so the kernel can evaluate them. -/

/-- Whether `pat` is a prefix of `s` (character lists). -/
def listIsPre : List Char → List Char → Bool
  | [], _ => true
  | _ :: _, [] => false
  | p :: ps, c :: cs => p == c && listIsPre ps cs

/-- Whether `pat` occurs as a contiguous run inside `s` (Python `pat in s`). -/
def listHasSub (pat : List Char) : List Char → Bool
  | [] => listIsPre pat []
  | c :: cs => listIsPre pat (c :: cs) || listHasSub pat cs

/-- Python `pat in s` on strings. -/
def strHasSub (s pat : String) : Bool :=
  listHasSub pat.data s.data

/-- Python `s.startswith(pre)`. -/
def strStartsWithPy (s pre : String) : Bool :=
  listIsPre pre.data s.data

/-- Python `s.upper()` (the source only feeds ASCII operator/line codes). -/
def strUpper (s : String) : String :=
  String.mk (s.data.map Char.toUpper)

/-- Python `s.lower()`. -/
def strLower (s : String) : String :=
  String.mk (s.data.map Char.toLower)

/-- Python `s.isdigit()`: non-empty and all digits. -/
def pyIsDigit (s : String) : Bool :=
  !s.data.isEmpty && s.data.all Char.isDigit

/-- Python `s[0].isalpha()` guarded by non-emptiness. -/
def firstIsAlpha (s : String) : Bool :=
  match s.data with
  | c :: _ => c.isAlpha
  | [] => false

/-- Python `int(s)` on an all-digit string (the source only converts after an
`isdigit` check). -/
def digitsToNat (s : String) : Nat :=
  s.data.foldl (fun n c => n * 10 + (c.toNat - 48)) 0

/-- Drop leading whitespace from a character list. -/
def dropLeadingWs : List Char → List Char
  | [] => []
  | c :: cs => if c.isWhitespace then dropLeadingWs cs else c :: cs

/-- Python `s.strip()`: remove leading and trailing whitespace. -/
def pyStrip (s : String) : String :=
  String.mk (List.reverse (dropLeadingWs (List.reverse (dropLeadingWs s.data))))

/-- Model of `text.replace(BOM, "")` from `api.py` line 116: remove every
byte-order mark U+FEFF (the pattern is a single character, so replacement
with the empty string is a filter). -/
def stripBom (s : String) : String :=
  String.mk (s.data.filter (fun c => !(c == '\uFEFF')))

/- ----------------------------------------------------------------- -/
/- const.py                                                          -/
/- ----------------------------------------------------------------- -/

def VEHICLE_TYPE_BUS : String := "bus"

def VEHICLE_TYPE_TRAIN : String := "train"

def VEHICLE_TYPE_UNKNOWN : String := "unknown"

/-- Truthiness of an optional string argument (`if not line_ref:` /
`if mode:` in `get_vehicle_type`): `None` and `""` are falsy. -/
def pyTruthyOptStr : Option String → Bool
  | Option.none => false
  | some s => !(s == "")

/-- Embedding of `const.get_vehicle_type(operator, line_ref, mode)`
(lines 146–216).
Faithful to the source's order: the falsy-`line_ref` guard first, then the
mode hint, then the operator table.  Python's early `return`s inside the mode
block are rendered as an `Option`-valued intermediate. -/
def get_vehicle_type (operator : String) (line_ref : Option String)
    (mode : Option String) : String :=
  if !(pyTruthyOptStr line_ref) then VEHICLE_TYPE_UNKNOWN
  else
    let lr := line_ref.getD ""
    let fromMode : Option String :=
      match mode with
      | some m =>
          if !(m == "") then
            let ml := strLower m
            if strHasSub ml "rail" || strHasSub ml "train" || strHasSub ml "metro" then
              some VEHICLE_TYPE_TRAIN
            else if strHasSub ml "bus" then some VEHICLE_TYPE_BUS
            else Option.none
          else Option.none
      | Option.none => Option.none
    match fromMode with
    | some t => t
    | Option.none =>
        let opU := strUpper operator
        if opU == "BA" then VEHICLE_TYPE_TRAIN
        else if opU == "CM" then VEHICLE_TYPE_TRAIN
        else if opU == "SF" then
          if pyIsDigit lr then VEHICLE_TYPE_BUS
          else if ["N", "T", "L", "M", "K", "J", "S", "E", "F"].contains (strUpper lr) then
            VEHICLE_TYPE_TRAIN
          else if firstIsAlpha lr then VEHICLE_TYPE_TRAIN
          else VEHICLE_TYPE_BUS
        else if opU == "AC" then VEHICLE_TYPE_BUS
        else if opU == "CC" then VEHICLE_TYPE_BUS
        else if opU == "SM" then VEHICLE_TYPE_BUS
        else if opU == "SC" then
          let lu := strUpper lr
          if strHasSub lu "BLUE" || strHasSub lu "GREEN" || strHasSub lu "ORANGE" then
            VEHICLE_TYPE_TRAIN
          else if pyIsDigit lr && decide (digitsToNat lr ≥ 900) then
            VEHICLE_TYPE_TRAIN
          else VEHICLE_TYPE_BUS
        else VEHICLE_TYPE_UNKNOWN

/- ----------------------------------------------------------------- -/
/- api.py                                                            -/
/- ----------------------------------------------------------------- -/

/-- The failure classes raised by `Transit511ApiClient._make_request`.
`Transit511RateLimitError` and `Transit511AuthError` are distinct exception
classes in the source; the remaining raise sites all use the base
`Transit511ApiError` and are distinguished here by their raise site, which the
spec names `MalformedResponse` (empty body / non-JSON start / parse failure)
and `TransportFailure` (timeout, or an `aiohttp.ClientError` from the network
layer or from `raise_for_status`). -/
inductive ApiError where
  | rateLimited (msg : String)
  | authFailed
  | malformed (msg : String)
  | transport (msg : String)

/-- The outcome of the single `session.get` round-trip, as seen by
`_make_request`: either an HTTP response (status and raw body text), or a
timeout of the 20-unit `async_timeout` block, or an `aiohttp.ClientError`
raised by the network layer. -/
inductive HttpOutcome where
  | response (status : Nat) (body : String)
  | timeout
  | clientError

/-- The body sentence recognised as a rate-limit reply (`api.py` line 119). -/
def RATE_LIMIT_SENTENCE : String := "The allowed number of requests"

/-- Embedding of `Transit511ApiClient._make_request` (`api.py` lines 96–144), with the
HTTP layer abstracted into `HttpOutcome` and `json.loads` into the `parse`
argument (`parse text = none` models `json.JSONDecodeError`).  Statuses other
than 429/401/403 at or above 400 make `response.raise_for_status()` raise an
`aiohttp.ClientResponseError`, an `aiohttp.ClientError`, caught at line 142. -/
def make_request (parse : String → Option PyVal) (out : HttpOutcome) :
    Except ApiError PyVal :=
  match out with
  | HttpOutcome.timeout => Except.error (ApiError.transport "Timeout fetching data")
  | HttpOutcome.clientError => Except.error (ApiError.transport "Error fetching data")
  | HttpOutcome.response status body =>
      if status == 429 then Except.error (ApiError.rateLimited "Rate limit exceeded")
      else if status == 401 || status == 403 then Except.error ApiError.authFailed
      else if 400 ≤ status then Except.error (ApiError.transport "Error fetching data")
      else
        let text := pyStrip (stripBom body)
        if strStartsWithPy text RATE_LIMIT_SENTENCE then
          Except.error (ApiError.rateLimited text)
        else if text == "" then Except.error (ApiError.malformed "Empty response from API")
        else if !(strStartsWithPy text "\x7b" || strStartsWithPy text "[") then
          Except.error (ApiError.malformed "Invalid JSON response")
        else
          match parse text with
          | some json => Except.ok json
          | Option.none => Except.error (ApiError.malformed "Failed to parse JSON")

/- ----------------------------------------------------------------- -/
/- __init__.py : coordinators                                        -/
/- ----------------------------------------------------------------- -/

/-- The value returned by `GlobalStopCoordinator._async_update_data` on
success: `{"response_timestamp": ..., "visits": ...}`. -/
structure StopSnapshot where
  response_timestamp : Option PyVal
  visits : List PyVal

/-- The value returned by `Transit511VehicleCoordinator._async_update_data`
on success: `{"response_timestamp": ..., "activities": ...}`. -/
structure VehicleSnapshot where
  response_timestamp : Option PyVal
  activities : List PyVal

/-- The state of a `GlobalStopCoordinator` (the shared per-stop poller).
`data` and `last_update_success` are the `DataUpdateCoordinator` base-class
fields the integration reads; the HTTP client object is not part of the pure
state — each tick takes the fetch outcome as input. -/
structure GlobalStopCoordinator where
  operator : String
  stop_code : String
  scan_interval : Nat
  first_update_done : Bool
  update_interval : Nat
  data : Option StopSnapshot
  last_update_success : Bool

/-- Embedding of `GlobalStopCoordinator.__init__` (lines 245–267): interval starts at the
configured `scan_interval`, no update has run, no data yet.
(`DataUpdateCoordinator` initialises `last_update_success` to `True`.) -/
def newGlobalStopCoordinator (operator stop_code : String) (scan_interval : Nat) :
    GlobalStopCoordinator :=
  { operator := operator, stop_code := stop_code, scan_interval := scan_interval,
    first_update_done := false, update_interval := scan_interval,
    data := Option.none, last_update_success := true }

/-- One tick of `GlobalStopCoordinator._async_update_data` (lines 269–323)
combined with the `DataUpdateCoordinator` base-class semantics for its result:
a returned value replaces `data` and sets `last_update_success = True`; a
raised `UpdateFailed` (the `except Transit511ApiError` branch, line 323)
leaves `data` untouched and sets `last_update_success = False` while the
refresh loop keeps running.  The interval-staggering block (lines 285–304)
runs before the fetch, on every tick, whatever the fetch outcome. -/
def stopTick (c : GlobalStopCoordinator) (fetch : Except ApiError PyVal) :
    GlobalStopCoordinator :=
  let c :=
    if c.first_update_done then
      if c.update_interval == 60 then { c with update_interval := c.scan_interval } else c
    else
      { c with first_update_done := true, update_interval := 60 }
  match fetch with
  | Except.ok data =>
      let delivery :=
        pyGetD (pyGetD data "ServiceDelivery" (PyVal.pydict []))
          "StopMonitoringDelivery" (PyVal.pydict [])
      let visits := normalize_records (pyGetD delivery "MonitoredStopVisit" (PyVal.pylist []))
      { c with
          data := some { response_timestamp := pyGet delivery "ResponseTimestamp",
                         visits := visits },
          last_update_success := true }
  | Except.error _ => { c with last_update_success := false }

/-- The state of a `Transit511VehicleCoordinator` (per-vehicle poller). -/
structure VehicleCoordinator where
  operator : String
  vehicle_id : String
  scan_interval : Nat
  first_update_done : Bool
  update_interval : Nat
  data : Option VehicleSnapshot
  last_update_success : Bool

/-- Embedding of `Transit511VehicleCoordinator.__init__` (lines 449–474). -/
def newVehicleCoordinator (operator vehicle_id : String) (scan_interval : Nat) :
    VehicleCoordinator :=
  { operator := operator, vehicle_id := vehicle_id, scan_interval := scan_interval,
    first_update_done := false, update_interval := scan_interval,
    data := Option.none, last_update_success := true }

/-- One tick of `Transit511VehicleCoordinator._async_update_data`
(lines 476–533), under the same base-class semantics as `stopTick`.  The
one-shot `_update_device_name` call is a display-layer side effect and does
not touch the returned snapshot. -/
def vehicleTick (c : VehicleCoordinator) (fetch : Except ApiError PyVal) :
    VehicleCoordinator :=
  let c :=
    if c.first_update_done then
      if c.update_interval == 60 then { c with update_interval := c.scan_interval } else c
    else
      { c with first_update_done := true, update_interval := 60 }
  match fetch with
  | Except.ok data =>
      let delivery :=
        pyGetD (pyGetD data "ServiceDelivery" (PyVal.pydict []))
          "VehicleMonitoringDelivery" (PyVal.pydict [])
      let activities := normalize_records (pyGetD delivery "VehicleActivity" (PyVal.pylist []))
      { c with
          data := some { response_timestamp := pyGet delivery "ResponseTimestamp",
                         activities := activities },
          last_update_success := true }
  | Except.error _ => { c with last_update_success := false }

/- ----------------------------------------------------------------- -/
/- __init__.py : registry (async_setup_entry / async_unload_entry)   -/
/- ----------------------------------------------------------------- -/

/-- Result of one pass through the get-or-create block of
`async_setup_entry`: the coordinator handed to the device, the registry
afterwards, and how many upstream fetches the pass performed. -/
structure RegistryResult where
  poller : GlobalStopCoordinator
  registry : List (String × GlobalStopCoordinator)
  fetches : Nat

/-- The shared-coordinator lookup of `async_setup_entry`
(`__init__.py` lines 84–128): key `f"{operator}_{stop_code}"`; if present,
reuse the stored coordinator with no fetch; if absent, construct a fresh
`GlobalStopCoordinator`, run `async_config_entry_first_refresh` (one tick,
hence one Fetch Client call, with outcome `firstFetch`), and store it. -/
def getOrCreate (reg : List (String × GlobalStopCoordinator))
    (operator stop_code : String) (scan_interval : Nat)
    (firstFetch : Except ApiError PyVal) : RegistryResult :=
  let key := operator ++ "_" ++ stop_code
  match lookupKV reg key with
  | some coord => { poller := coord, registry := reg, fetches := 0 }
  | Option.none =>
      let coord := stopTick (newGlobalStopCoordinator operator stop_code scan_interval) firstFetch
      { poller := coord, registry := (key, coord) :: reg, fetches := 1 }

/-- Model of `dict.pop(key, None)`: drop every binding of `key` (an association list
may hold at most one, so this is the single-binding pop). -/
def removeKey (reg : List (String × GlobalStopCoordinator)) (key : String) :
    List (String × GlobalStopCoordinator) :=
  reg.filter (fun kv => !(kv.1 == key))

/-- The registry cleanup of `async_unload_entry` (`__init__.py` lines
205–239): for each stop of the entry being unloaded, unconditionally pop
`f"{operator}_{stop_code}"` from the global table.  There is no reference
count — the pop does not consult other loaded entries. -/
def unload_entry (reg : List (String × GlobalStopCoordinator))
    (operator : String) (stop_codes : List String) :
    List (String × GlobalStopCoordinator) :=
  stop_codes.foldl (fun r sc => removeKey r (operator ++ "_" ++ sc)) reg

/- ----------------------------------------------------------------- -/
/- __init__.py : StopDeviceCoordinator._filter_data                  -/
/- ----------------------------------------------------------------- -/

/-- The value `visit.get("MonitoredVehicleJourney", dict()).get("LineRef", "")`
that a visit is filtered on (lines 379–381). -/
def visitLineRef (visit : PyVal) : PyVal :=
  pyGetD (pyGetD visit "MonitoredVehicleJourney" (PyVal.pydict [])) "LineRef" (PyVal.pystr "")

/-- Python `==` between a JSON value and the `line_id` string: true exactly
for the equal string. -/
def pyEqStr (v : PyVal) (s : String) : Bool :=
  match v with
  | PyVal.pystr t => t == s
  | _ => false

/-- Embedding of `StopDeviceCoordinator._filter_data` (lines 368–392), as the pure value
it returns: `None` upstream data yields the empty snapshot; a truthy
`line_id` keeps exactly the visits whose `LineRef` equals it; the timestamp
is passed through.  The one-shot `_update_device_name` call inside the source
method is a display-layer side effect that does not contribute to the return
value. -/
def filter_data (gdata : Option StopSnapshot) (line_id : String) : StopSnapshot :=
  match gdata with
  | Option.none => { response_timestamp := Option.none, visits := [] }
  | some d =>
      let visits :=
        if !(line_id == "") then
          d.visits.filter (fun visit => pyEqStr (visitLineRef visit) line_id)
        else d.visits
      { response_timestamp := d.response_timestamp, visits := visits }

/- ----------------------------------------------------------------- -/
/- Sample values used by witnesses                                   -/
/- ----------------------------------------------------------------- -/

/-- A stop visit on line "N". -/
def sampleVisitN : PyVal :=
  PyVal.pydict [("MonitoredVehicleJourney", PyVal.pydict [("LineRef", PyVal.pystr "N")])]

/-- A stop visit on line "T". -/
def sampleVisitT : PyVal :=
  PyVal.pydict [("MonitoredVehicleJourney", PyVal.pydict [("LineRef", PyVal.pystr "T")])]

/-- A stop visit on line "5". -/
def sampleVisit5 : PyVal :=
  PyVal.pydict [("MonitoredVehicleJourney", PyVal.pydict [("LineRef", PyVal.pystr "5")])]

/- ----------------------------------------------------------------- -/
/- C6                                                                -/
/- ----------------------------------------------------------------- -/

/-- C6, counterexample.  The claim states that `classify("BA", r)` returns
Train for every line reference `r`; but `get_vehicle_type` returns before any
operator rule when `line_ref` is falsy (`const.py` lines 157–158), so the
empty line reference — which reaches the classifier whenever a journey lacks
a `LineRef`, since callers pass `journey.get("LineRef", "")` — yields
`unknown`, not `train`, even for operator "BA". -/
theorem c6_counterexample :
    ¬ (get_vehicle_type "BA" (some "") Option.none = VEHICLE_TYPE_TRAIN) := by
  decide

/-- C6, amended: for every NON-EMPTY line reference `r` (and no mode hint, as
in the spec's fixtures), `classify("BA", r)` returns Train; and the concrete
fixtures `classify("SF","38") = Bus`, `classify("SF","N") = Train`,
`classify("AC","51") = Bus` hold.  Determinism and absence of I/O are by
construction: `get_vehicle_type` is a pure function of its arguments. -/
theorem c6_classifier_fixtures (r : String) (h : r ≠ "") :
    get_vehicle_type "BA" (some r) Option.none = VEHICLE_TYPE_TRAIN ∧
    get_vehicle_type "SF" (some "38") Option.none = VEHICLE_TYPE_BUS ∧
    get_vehicle_type "SF" (some "N") Option.none = VEHICLE_TYPE_TRAIN ∧
    get_vehicle_type "AC" (some "51") Option.none = VEHICLE_TYPE_BUS := by
  refine ⟨?_, by decide, by decide, by decide⟩
  have hb : pyTruthyOptStr (some r) = true := by simp [pyTruthyOptStr, h]
  simp only [get_vehicle_type, hb]
  rfl

/-- C6 witness. -/
theorem c6_classifier_fixtures_witness :
    get_vehicle_type "BA" (some "anything") Option.none = VEHICLE_TYPE_TRAIN :=
  (c6_classifier_fixtures "anything" (by decide)).1

/- ----------------------------------------------------------------- -/
/- C7                                                                -/
/- ----------------------------------------------------------------- -/

/-- C7, counterexample.  The claim states that for every operator and every
line reference a mode hint is applied first; but the falsy-`line_ref` guard
(`const.py` lines 157–158) runs before the mode-hint block (lines 161–166),
so with the empty line reference and hint "rail" the classifier returns
`unknown`, not `train`. -/
theorem c7_counterexample :
    ¬ (get_vehicle_type "SF" (some "") (some "rail") = VEHICLE_TYPE_TRAIN) := by
  decide

/-- C7, amended: for every operator and every NON-EMPTY line reference, a
present (non-empty) mode hint is applied first: a hint containing "rail",
"train" or "metro" yields Train, and a hint containing "bus" BUT NONE OF
"rail"/"train"/"metro" yields Bus (the rail check precedes the bus check in
the source, so a hint containing both yields Train), in both cases before —
and overriding — any operator-specific table rule. -/
theorem c7_mode_hint_first (op lr m : String) (hlr : lr ≠ "") (hm : m ≠ "") :
    ((strHasSub (strLower m) "rail" = true ∨ strHasSub (strLower m) "train" = true ∨
        strHasSub (strLower m) "metro" = true) →
      get_vehicle_type op (some lr) (some m) = VEHICLE_TYPE_TRAIN) ∧
    (strHasSub (strLower m) "rail" = false → strHasSub (strLower m) "train" = false →
      strHasSub (strLower m) "metro" = false → strHasSub (strLower m) "bus" = true →
      get_vehicle_type op (some lr) (some m) = VEHICLE_TYPE_BUS) := by
  have hb : pyTruthyOptStr (some lr) = true := by simp [pyTruthyOptStr, hlr]
  have hm' : (m == "") = false := by simp [hm]
  constructor
  · intro hrail
    have htrain : (strHasSub (strLower m) "rail" || strHasSub (strLower m) "train" ||
        strHasSub (strLower m) "metro") = true := by
      rcases hrail with h | h | h <;> simp [h]
    simp only [get_vehicle_type, hb, hm', htrain]
    rfl
  · intro h1 h2 h3 h4
    simp only [get_vehicle_type, hb, hm', h1, h2, h3, h4]
    rfl

/-- C7 witness: the hint overrides the operator table in both directions —
"AC" is a fixed-Bus operator yet the "rail" hint gives Train, and "BA" is a
fixed-Train operator yet the "bus" hint gives Bus. -/
theorem c7_mode_hint_first_witness :
    get_vehicle_type "AC" (some "51") (some "rail") = VEHICLE_TYPE_TRAIN ∧
    get_vehicle_type "BA" (some "x") (some "bus") = VEHICLE_TYPE_BUS :=
  ⟨(c7_mode_hint_first "AC" "51" "rail" (by decide) (by decide)).1 (Or.inl (by decide)),
   (c7_mode_hint_first "BA" "x" "bus" (by decide) (by decide)).2
     (by decide) (by decide) (by decide) (by decide)⟩

/- ----------------------------------------------------------------- -/
/- C9                                                                -/
/- ----------------------------------------------------------------- -/

/-- C9: when the shared poller has no snapshot (`global_coordinator.data` is
`None`, i.e. the upstream fetch never succeeded), `_filter_data` returns the
empty-records snapshot with a null timestamp, for every configured line
filter; being a total Lean function, the projection never raises. -/
theorem c9_absent_snapshot_empty (line_id : String) :
    filter_data Option.none line_id
      = { response_timestamp := Option.none, visits := [] } := rfl

/- ----------------------------------------------------------------- -/
/- C4                                                                -/
/- ----------------------------------------------------------------- -/

/-- Filtering twice with one predicate is the same as filtering once. -/
theorem filter_idem {α : Type} (p : α → Bool) (l : List α) :
    (l.filter p).filter p = l.filter p := by
  refine List.filter_eq_self.mpr ?_
  intro a ha
  exact (List.mem_filter.mp ha).2

/-- C4: the per-device projection `_filter_data`, on a present snapshot,
(i) passes the snapshot's timestamp through, (ii) with no line filter passes
every record through unfiltered, (iii) with a line filter `L` returns a
subsequence of the snapshot's records (hence in original order) containing a
record iff its journey's `LineRef` equals `L`, and (iv) is idempotent:
projecting the projected snapshot again returns it unchanged.  Purity and
determinism hold by construction — `filter_data` is a function of the
snapshot and the filter alone. -/
theorem c4_projection_filters (ts : Option PyVal) (visits : List PyVal) (L : String) :
    (filter_data (some ⟨ts, visits⟩) L).response_timestamp = ts ∧
    (L = "" → (filter_data (some ⟨ts, visits⟩) L).visits = visits) ∧
    (L ≠ "" →
      List.Sublist (filter_data (some ⟨ts, visits⟩) L).visits visits ∧
      (∀ v ∈ (filter_data (some ⟨ts, visits⟩) L).visits, pyEqStr (visitLineRef v) L = true) ∧
      (∀ v ∈ visits, pyEqStr (visitLineRef v) L = true →
        v ∈ (filter_data (some ⟨ts, visits⟩) L).visits)) ∧
    filter_data (some (filter_data (some ⟨ts, visits⟩) L)) L
      = filter_data (some ⟨ts, visits⟩) L := by
  by_cases hL : L = ""
  · subst hL
    refine ⟨rfl, fun _ => rfl, fun h => absurd rfl h, rfl⟩
  · have hb : (L == "") = false := by simp [hL]
    refine ⟨?_, fun h => absurd h hL, fun _ => ⟨?_, ?_, ?_⟩, ?_⟩
    · simp [filter_data, hb]
    · simp only [filter_data, hb, Bool.not_false, if_true]
      exact List.filter_sublist visits
    · intro v hv
      simp only [filter_data, hb, Bool.not_false, if_true] at hv
      exact (List.mem_filter.mp hv).2
    · intro v hv hmatch
      simp only [filter_data, hb, Bool.not_false, if_true]
      exact List.mem_filter.mpr ⟨hv, hmatch⟩
    · simp only [filter_data, hb, Bool.not_false, if_true]
      rw [filter_idem]

/-- C4 witness: projecting the spec's three-line snapshot (lines N, T, 5)
with filter "N" keeps exactly the N-visit. -/
theorem c4_projection_filters_witness :
    List.Sublist (filter_data (some ⟨Option.none, [sampleVisitN, sampleVisitT, sampleVisit5]⟩)
        "N").visits [sampleVisitN, sampleVisitT, sampleVisit5] ∧
    sampleVisitN ∈ (filter_data (some ⟨Option.none, [sampleVisitN, sampleVisitT, sampleVisit5]⟩)
        "N").visits :=
  ⟨((c4_projection_filters Option.none [sampleVisitN, sampleVisitT, sampleVisit5] "N").2.2.1
      (by decide)).1,
   ((c4_projection_filters Option.none [sampleVisitN, sampleVisitT, sampleVisit5] "N").2.2.1
      (by decide)).2.2 sampleVisitN (List.mem_cons_self _ _) (by decide)⟩

/- ----------------------------------------------------------------- -/
/- C10                                                               -/
/- ----------------------------------------------------------------- -/

/-- C10: the record-normalisation idiom applied by both coordinators to the
delivery's record field: a non-list truthy value becomes the one-element list
holding exactly that value; a non-list falsy value becomes the empty list; a
missing field (so the `.get` default `[]`) becomes the empty list; and on
every successful tick both the stop coordinator's `visits` and the vehicle
coordinator's `activities` are the normalisation of the corresponding raw
delivery field — in particular always a list. -/
theorem c10_records_always_list (v deliv data : PyVal)
    (c : GlobalStopCoordinator) (w : VehicleCoordinator) :
    (pyIsList v = false → pyTruthy v = true → normalize_records v = [v]) ∧
    (pyIsList v = false → pyTruthy v = false → normalize_records v = []) ∧
    (pyGet deliv "MonitoredStopVisit" = Option.none →
      normalize_records (pyGetD deliv "MonitoredStopVisit" (PyVal.pylist [])) = []) ∧
    (∃ s, (stopTick c (Except.ok data)).data = some s ∧
      s.visits = normalize_records (pyGetD
        (pyGetD (pyGetD data "ServiceDelivery" (PyVal.pydict []))
          "StopMonitoringDelivery" (PyVal.pydict []))
        "MonitoredStopVisit" (PyVal.pylist []))) ∧
    (∃ s, (vehicleTick w (Except.ok data)).data = some s ∧
      s.activities = normalize_records (pyGetD
        (pyGetD (pyGetD data "ServiceDelivery" (PyVal.pydict []))
          "VehicleMonitoringDelivery" (PyVal.pydict []))
        "VehicleActivity" (PyVal.pylist []))) := by
  refine ⟨?_, ?_, ?_, ?_, ?_⟩
  · intro hlist htruthy
    cases v <;> simp_all [normalize_records, pyIsList]
  · intro hlist htruthy
    cases v <;> simp_all [normalize_records, pyIsList]
  · intro habs
    simp [pyGetD, habs, normalize_records]
  · simp only [stopTick]
    exact ⟨_, rfl, rfl⟩
  · simp only [vehicleTick]
    exact ⟨_, rfl, rfl⟩

/-- C10 witness: a single truthy non-list visit dict is wrapped into a
one-element list; `None` and the missing-field default collapse to `[]`. -/
theorem c10_records_always_list_witness :
    normalize_records sampleVisitN = [sampleVisitN] ∧
    normalize_records PyVal.pynone = [] :=
  ⟨(c10_records_always_list sampleVisitN (PyVal.pydict []) (PyVal.pydict [])
      (newGlobalStopCoordinator "SF" "18031" 60) (newVehicleCoordinator "SF" "1" 60)).1
      (by decide) (by decide),
   (c10_records_always_list PyVal.pynone (PyVal.pydict []) (PyVal.pydict [])
      (newGlobalStopCoordinator "SF" "18031" 60) (newVehicleCoordinator "SF" "1" 60)).2.1
      (by decide) (by decide)⟩

/- ----------------------------------------------------------------- -/
/- C5                                                                -/
/- ----------------------------------------------------------------- -/

/-- C5: `_make_request` classifies every upstream outcome as the claim
enumerates, with `text` the payload after byte-order-mark removal and
whitespace stripping (so all body checks happen on the stripped payload):
status 429 is RateLimited whatever the body; 401/403 is the auth failure; a
timeout or network-layer (`aiohttp.ClientError`) failure is a transport
failure; and for an accepted status, a body beginning with the rate-limit
sentence is RateLimited, an empty body / a body not starting with a brace or
bracket / a parse failure is malformed, and otherwise the parsed JSON is
returned.  `parse` abstracts `json.loads`. -/
theorem c5_make_request_classifies (parse : String → Option PyVal)
    (status : Nat) (body : String) :
    make_request parse (HttpOutcome.response 429 body)
      = Except.error (ApiError.rateLimited "Rate limit exceeded") ∧
    (status = 401 ∨ status = 403 →
      make_request parse (HttpOutcome.response status body)
        = Except.error ApiError.authFailed) ∧
    make_request parse HttpOutcome.timeout
      = Except.error (ApiError.transport "Timeout fetching data") ∧
    make_request parse HttpOutcome.clientError
      = Except.error (ApiError.transport "Error fetching data") ∧
    (status < 400 →
      (strStartsWithPy (pyStrip (stripBom body)) RATE_LIMIT_SENTENCE = true →
        make_request parse (HttpOutcome.response status body)
          = Except.error (ApiError.rateLimited (pyStrip (stripBom body)))) ∧
      (strStartsWithPy (pyStrip (stripBom body)) RATE_LIMIT_SENTENCE = false →
        pyStrip (stripBom body) = "" →
        make_request parse (HttpOutcome.response status body)
          = Except.error (ApiError.malformed "Empty response from API")) ∧
      (strStartsWithPy (pyStrip (stripBom body)) RATE_LIMIT_SENTENCE = false →
        pyStrip (stripBom body) ≠ "" →
        (strStartsWithPy (pyStrip (stripBom body)) "\x7b" ||
          strStartsWithPy (pyStrip (stripBom body)) "[") = false →
        make_request parse (HttpOutcome.response status body)
          = Except.error (ApiError.malformed "Invalid JSON response")) ∧
      (strStartsWithPy (pyStrip (stripBom body)) RATE_LIMIT_SENTENCE = false →
        (strStartsWithPy (pyStrip (stripBom body)) "\x7b" ||
          strStartsWithPy (pyStrip (stripBom body)) "[") = true →
        parse (pyStrip (stripBom body)) = Option.none →
        make_request parse (HttpOutcome.response status body)
          = Except.error (ApiError.malformed "Failed to parse JSON")) ∧
      (∀ j, strStartsWithPy (pyStrip (stripBom body)) RATE_LIMIT_SENTENCE = false →
        (strStartsWithPy (pyStrip (stripBom body)) "\x7b" ||
          strStartsWithPy (pyStrip (stripBom body)) "[") = true →
        parse (pyStrip (stripBom body)) = some j →
        make_request parse (HttpOutcome.response status body) = Except.ok j)) := by
  refine ⟨by simp [make_request], ?_, rfl, rfl, ?_⟩
  · rintro (h | h) <;> subst h <;> simp [make_request]
  · intro hlt
    have h429 : (status == 429) = false := by simp; omega
    have h401 : (status == 401 || status == 403) = false := by simp; omega
    have h400 : ¬ (400 ≤ status) := by omega
    have hbrtrue : ∀ (hs : strStartsWithPy (pyStrip (stripBom body)) RATE_LIMIT_SENTENCE = false)
        (hbr : (strStartsWithPy (pyStrip (stripBom body)) "\x7b" ||
          strStartsWithPy (pyStrip (stripBom body)) "[") = true),
        pyStrip (stripBom body) ≠ "" := by
      intro hs hbr hemp
      rw [hemp] at hbr
      exact Bool.false_ne_true ((by decide :
        (strStartsWithPy "" "\x7b" || strStartsWithPy "" "[") = false) ▸ hbr)
    refine ⟨?_, ?_, ?_, ?_, ?_⟩
    · intro hs
      simp [make_request, h429, h401, h400, hs]
    · intro hs hemp
      simp [make_request, h429, h401, h400, hs, hemp]
      all_goals decide
    · intro hs hemp hbr
      have hne : (pyStrip (stripBom body) == "") = false := by simp [hemp]
      simp [make_request, h429, h401, h400, hs, hne, hbr]
    · intro hs hbr hparse
      have hne : (pyStrip (stripBom body) == "") = false := by simp [hbrtrue hs hbr]
      simp [make_request, h429, h401, h400, hs, hne, hbr, hparse]
    · intro j hs hbr hparse
      have hne : (pyStrip (stripBom body) == "") = false := by simp [hbrtrue hs hbr]
      simp [make_request, h429, h401, h400, hs, hne, hbr, hparse]

/-- A stand-in for `json.loads` on the single well-formed body the C5
witness exercises. -/
def parseStub (text : String) : Option PyVal :=
  if text == "\x7b\x7d" then some (PyVal.pydict []) else Option.none

/-- C5 witness: a 200 reply whose body carries a leading byte-order mark and
surrounding whitespace round an empty JSON object parses to that object, and
a 403 reply is the auth failure. -/
theorem c5_make_request_classifies_witness :
    make_request parseStub (HttpOutcome.response 200 " \uFEFF\x7b\x7d ")
      = Except.ok (PyVal.pydict []) ∧
    make_request parseStub (HttpOutcome.response 403 "irrelevant")
      = Except.error ApiError.authFailed :=
  ⟨((c5_make_request_classifies parseStub 200 " \uFEFF\x7b\x7d ").2.2.2.2
      (by decide)).2.2.2.2 (PyVal.pydict []) (by decide) (by decide) (by rfl),
   (c5_make_request_classifies parseStub 403 "irrelevant").2.1 (Or.inr rfl)⟩

/- ----------------------------------------------------------------- -/
/- Tick bookkeeping lemmas (shared by C2 and C3)                     -/
/- ----------------------------------------------------------------- -/

/-- The interval a stop tick leaves behind depends only on the staggering
policy, never on the fetch outcome. -/
theorem stopTick_update_interval (c : GlobalStopCoordinator) (f : Except ApiError PyVal) :
    (stopTick c f).update_interval =
      if c.first_update_done then
        (if c.update_interval == 60 then c.scan_interval else c.update_interval)
      else 60 := by
  cases f <;> simp only [stopTick] <;> split <;> (try split) <;> rfl

/-- After any stop tick the first-update flag is set. -/
theorem stopTick_first_update_done (c : GlobalStopCoordinator) (f : Except ApiError PyVal) :
    (stopTick c f).first_update_done = true := by
  cases f <;> simp only [stopTick] <;> split <;> (try split) <;>
    simp_all [stopTick]

/-- A stop tick never changes the configured interval. -/
theorem stopTick_scan_interval (c : GlobalStopCoordinator) (f : Except ApiError PyVal) :
    (stopTick c f).scan_interval = c.scan_interval := by
  cases f <;> simp only [stopTick] <;> split <;> (try split) <;> rfl

/-- Vehicle analogue of `stopTick_update_interval`. -/
theorem vehicleTick_update_interval (c : VehicleCoordinator) (f : Except ApiError PyVal) :
    (vehicleTick c f).update_interval =
      if c.first_update_done then
        (if c.update_interval == 60 then c.scan_interval else c.update_interval)
      else 60 := by
  cases f <;> simp only [vehicleTick] <;> split <;> (try split) <;> rfl

/-- Vehicle analogue of `stopTick_first_update_done`. -/
theorem vehicleTick_first_update_done (c : VehicleCoordinator) (f : Except ApiError PyVal) :
    (vehicleTick c f).first_update_done = true := by
  cases f <;> simp only [vehicleTick] <;> split <;> (try split) <;>
    simp_all [vehicleTick]

/-- Vehicle analogue of `stopTick_scan_interval`. -/
theorem vehicleTick_scan_interval (c : VehicleCoordinator) (f : Except ApiError PyVal) :
    (vehicleTick c f).scan_interval = c.scan_interval := by
  cases f <;> simp only [vehicleTick] <;> split <;> (try split) <;> rfl

/- ----------------------------------------------------------------- -/
/- C2                                                                -/
/- ----------------------------------------------------------------- -/

/-- C2: for a freshly created poller of either kind (stop or vehicle) and
whatever the user configured, after the first tick the poll interval is the
fixed 60-unit warm-up value — so the second tick fires after the warm-up
interval — and after the second tick the interval is back to the configured
`scan_interval` — so the third and all later ticks use the configured
cadence.  The fetch outcomes `f1 f2 g1 g2` are arbitrary: the staggering is
applied whether the fetches succeed or fail. -/
theorem c2_warmup_then_configured (c : GlobalStopCoordinator) (w : VehicleCoordinator)
    (f1 f2 g1 g2 : Except ApiError PyVal)
    (hc : c.first_update_done = false) (hw : w.first_update_done = false) :
    (stopTick c f1).update_interval = 60 ∧
    (stopTick (stopTick c f1) f2).update_interval = c.scan_interval ∧
    (vehicleTick w g1).update_interval = 60 ∧
    (vehicleTick (vehicleTick w g1) g2).update_interval = w.scan_interval := by
  refine ⟨?_, ?_, ?_, ?_⟩
  · rw [stopTick_update_interval, hc]; rfl
  · rw [stopTick_update_interval, stopTick_first_update_done,
      stopTick_update_interval, hc, stopTick_scan_interval]
    rfl
  · rw [vehicleTick_update_interval, hw]; rfl
  · rw [vehicleTick_update_interval, vehicleTick_first_update_done,
      vehicleTick_update_interval, hw, vehicleTick_scan_interval]
    rfl

/-- C2 witness: a stop poller configured at 120 units and a vehicle poller
configured at 300 units both warm up at 60 then return to their configured
cadence, here under a failing first fetch and a successful second one. -/
theorem c2_warmup_then_configured_witness :
    (stopTick (newGlobalStopCoordinator "SF" "18031" 120)
        (Except.error (ApiError.transport "Timeout fetching data"))).update_interval = 60 ∧
    (stopTick (stopTick (newGlobalStopCoordinator "SF" "18031" 120)
        (Except.error (ApiError.transport "Timeout fetching data")))
        (Except.ok (PyVal.pydict []))).update_interval = 120 :=
  ⟨(c2_warmup_then_configured (newGlobalStopCoordinator "SF" "18031" 120)
      (newVehicleCoordinator "SF" "1" 300)
      (Except.error (ApiError.transport "Timeout fetching data")) (Except.ok (PyVal.pydict []))
      (Except.ok (PyVal.pydict [])) (Except.ok (PyVal.pydict [])) rfl rfl).1,
   (c2_warmup_then_configured (newGlobalStopCoordinator "SF" "18031" 120)
      (newVehicleCoordinator "SF" "1" 300)
      (Except.error (ApiError.transport "Timeout fetching data")) (Except.ok (PyVal.pydict []))
      (Except.ok (PyVal.pydict [])) (Except.ok (PyVal.pydict [])) rfl rfl).2.1⟩

/- ----------------------------------------------------------------- -/
/- C3                                                                -/
/- ----------------------------------------------------------------- -/

/-- C3: a failing fetch (every `Transit511ApiError`, in particular the
`Transit511RateLimitError` that `make_request` raises on HTTP 429) leaves the
cached snapshot untouched and sets `last_update_success` to `False` — the
failure surfaces as the raised `UpdateFailed`, not a crash — in every poller
state, for both poller kinds; the interval left for the next scheduled tick
is exactly the one an identically-timed successful tick would leave (failure
never perturbs the schedule), and for a poller past warm-up (interval already
back at the configured value) the next tick fires at that unchanged
previously-set interval. -/
theorem c3_failure_keeps_snapshot (c : GlobalStopCoordinator) (w : VehicleCoordinator)
    (e e' : ApiError) (d d' : PyVal) :
    (stopTick c (Except.error e)).data = c.data ∧
    (stopTick c (Except.error e)).last_update_success = false ∧
    (stopTick c (Except.error e)).update_interval
      = (stopTick c (Except.ok d)).update_interval ∧
    (c.first_update_done = true → c.update_interval = c.scan_interval →
      (stopTick c (Except.error e)).update_interval = c.update_interval) ∧
    (vehicleTick w (Except.error e')).data = w.data ∧
    (vehicleTick w (Except.error e')).last_update_success = false ∧
    (vehicleTick w (Except.error e')).update_interval
      = (vehicleTick w (Except.ok d')).update_interval ∧
    (w.first_update_done = true → w.update_interval = w.scan_interval →
      (vehicleTick w (Except.error e')).update_interval = w.update_interval) := by
  refine ⟨?_, ?_, ?_, ?_, ?_, ?_, ?_, ?_⟩
  · simp only [stopTick]
    split <;> (try split) <;> rfl
  · simp only [stopTick]
  · rw [stopTick_update_interval, stopTick_update_interval]
  · intro h1 h2
    rw [stopTick_update_interval, h1, if_pos rfl]
    by_cases h60 : c.update_interval = 60
    · simp [h60, ← h2]
    · simp [h60]
  · simp only [vehicleTick]
    split <;> (try split) <;> rfl
  · simp only [vehicleTick]
  · rw [vehicleTick_update_interval, vehicleTick_update_interval]
  · intro h1 h2
    rw [vehicleTick_update_interval, h1, if_pos rfl]
    by_cases h60 : w.update_interval = 60
    · simp [h60, ← h2]
    · simp [h60]

/-- C3 witness: a steady-state stop poller (configured 120, past warm-up)
hit by the rate-limit failure that HTTP 429 produces keeps its snapshot,
reports failure, and keeps its 120-unit schedule. -/
theorem c3_failure_keeps_snapshot_witness :
    (stopTick
        { operator := "SF", stop_code := "18031", scan_interval := 120,
          first_update_done := true, update_interval := 120,
          data := some { response_timestamp := Option.none, visits := [sampleVisitN] },
          last_update_success := true }
        (Except.error (ApiError.rateLimited "Rate limit exceeded"))).data
      = some { response_timestamp := Option.none, visits := [sampleVisitN] } ∧
    (stopTick
        { operator := "SF", stop_code := "18031", scan_interval := 120,
          first_update_done := true, update_interval := 120,
          data := some { response_timestamp := Option.none, visits := [sampleVisitN] },
          last_update_success := true }
        (Except.error (ApiError.rateLimited "Rate limit exceeded"))).update_interval = 120 :=
  ⟨(c3_failure_keeps_snapshot
      { operator := "SF", stop_code := "18031", scan_interval := 120,
        first_update_done := true, update_interval := 120,
        data := some { response_timestamp := Option.none, visits := [sampleVisitN] },
        last_update_success := true }
      (newVehicleCoordinator "SF" "1" 60)
      (ApiError.rateLimited "Rate limit exceeded") ApiError.authFailed
      (PyVal.pydict []) (PyVal.pydict [])).1,
   (c3_failure_keeps_snapshot
      { operator := "SF", stop_code := "18031", scan_interval := 120,
        first_update_done := true, update_interval := 120,
        data := some { response_timestamp := Option.none, visits := [sampleVisitN] },
        last_update_success := true }
      (newVehicleCoordinator "SF" "1" 60)
      (ApiError.rateLimited "Rate limit exceeded") ApiError.authFailed
      (PyVal.pydict []) (PyVal.pydict [])).2.2.2.1 rfl rfl⟩

/- ----------------------------------------------------------------- -/
/- C1                                                                -/
/- ----------------------------------------------------------------- -/

/-- C1: in the registry block of `async_setup_entry`, a present key is
returned as the stored coordinator with the registry untouched and zero
upstream fetches; an absent key makes exactly one fetch (the
`async_config_entry_first_refresh` of the freshly built coordinator), inserts
the coordinator under its key, and returns it — hence two successive requests
for a fresh key perform exactly one Fetch Client call in total and hand both
requesters the very same coordinator. -/
theorem c1_get_or_create_shares (reg : List (String × GlobalStopCoordinator))
    (operator stop_code : String) (scan_interval : Nat)
    (f1 f2 : Except ApiError PyVal) :
    (∀ p, lookupKV reg (operator ++ "_" ++ stop_code) = some p →
      getOrCreate reg operator stop_code scan_interval f1
        = { poller := p, registry := reg, fetches := 0 }) ∧
    (lookupKV reg (operator ++ "_" ++ stop_code) = Option.none →
      (getOrCreate reg operator stop_code scan_interval f1).fetches = 1 ∧
      lookupKV (getOrCreate reg operator stop_code scan_interval f1).registry
          (operator ++ "_" ++ stop_code)
        = some (getOrCreate reg operator stop_code scan_interval f1).poller ∧
      (getOrCreate (getOrCreate reg operator stop_code scan_interval f1).registry
          operator stop_code scan_interval f2).poller
        = (getOrCreate reg operator stop_code scan_interval f1).poller ∧
      (getOrCreate (getOrCreate reg operator stop_code scan_interval f1).registry
          operator stop_code scan_interval f2).registry
        = (getOrCreate reg operator stop_code scan_interval f1).registry ∧
      (getOrCreate (getOrCreate reg operator stop_code scan_interval f1).registry
          operator stop_code scan_interval f2).fetches = 0) := by
  constructor
  · intro p hp
    simp [getOrCreate, hp]
  · intro habs
    simp [getOrCreate, habs, lookupKV]

/-- C1 witness: starting from the empty registry, requesting SF stop 18031
twice makes one fetch, and the second pass reuses the first coordinator. -/
theorem c1_get_or_create_shares_witness :
    (getOrCreate [] "SF" "18031" 60 (Except.ok (PyVal.pydict []))).fetches = 1 ∧
    (getOrCreate (getOrCreate [] "SF" "18031" 60 (Except.ok (PyVal.pydict []))).registry
        "SF" "18031" 60 (Except.error ApiError.authFailed)).poller
      = (getOrCreate [] "SF" "18031" 60 (Except.ok (PyVal.pydict []))).poller ∧
    (getOrCreate (getOrCreate [] "SF" "18031" 60 (Except.ok (PyVal.pydict []))).registry
        "SF" "18031" 60 (Except.error ApiError.authFailed)).fetches = 0 :=
  ⟨((c1_get_or_create_shares [] "SF" "18031" 60 (Except.ok (PyVal.pydict []))
      (Except.error ApiError.authFailed)).2 rfl).1,
   ((c1_get_or_create_shares [] "SF" "18031" 60 (Except.ok (PyVal.pydict []))
      (Except.error ApiError.authFailed)).2 rfl).2.2.1,
   ((c1_get_or_create_shares [] "SF" "18031" 60 (Except.ok (PyVal.pydict []))
      (Except.error ApiError.authFailed)).2 rfl).2.2.2.2⟩

/- ----------------------------------------------------------------- -/
/- C8                                                                -/
/- ----------------------------------------------------------------- -/

/-- Popping a key removes its binding. -/
theorem lookup_removeKey_self (reg : List (String × GlobalStopCoordinator)) (k : String) :
    lookupKV (removeKey reg k) k = Option.none := by
  induction reg with
  | nil => rfl
  | cons kv rest ih =>
      by_cases h : kv.1 = k
      · simpa [removeKey, h] using ih
      · have hb : (kv.1 == k) = false := by simp [h]
        simpa [removeKey, lookupKV, hb] using ih

/-- Popping one key leaves every other key's binding alone. -/
theorem lookup_removeKey_other (reg : List (String × GlobalStopCoordinator))
    (k k' : String) (h : k' ≠ k) :
    lookupKV (removeKey reg k) k' = lookupKV reg k' := by
  induction reg with
  | nil => rfl
  | cons kv rest ih =>
      by_cases hk : kv.1 = k
      · simpa [removeKey, List.filter_cons, hk, Ne.symm h, lookupKV] using ih
      · by_cases hk' : kv.1 = k'
        · simp [removeKey, List.filter_cons, lookupKV, hk, hk', h]
        · simpa [removeKey, List.filter_cons, lookupKV, hk, hk'] using ih

/-- Keys outside an entry's own stop keys survive its unload untouched. -/
theorem unload_entry_other (operator : String) (stop_codes : List String)
    (reg : List (String × GlobalStopCoordinator)) (k : String)
    (h : ¬ k ∈ stop_codes.map (fun sc => operator ++ "_" ++ sc)) :
    lookupKV (unload_entry reg operator stop_codes) k = lookupKV reg k := by
  induction stop_codes generalizing reg with
  | nil => rfl
  | cons sc rest ih =>
      simp only [List.map_cons, List.mem_cons, not_or] at h
      rw [show unload_entry reg operator (sc :: rest)
          = unload_entry (removeKey reg (operator ++ "_" ++ sc)) operator rest from rfl]
      rw [ih _ (by simpa using h.2), lookup_removeKey_other _ _ _ h.1]

/-- C8, counterexample.  The claim states that a poller whose key is still
referenced by another loaded configuration survives an unrelated
configuration's unload; but `async_unload_entry` pops each of its own stops'
keys unconditionally, consulting no reference count and no other entry.
Concretely: two configurations both reference SF stop 18031 and thereby
share the registry entry "SF_18031"; unloading the first (operator "SF",
stops ["18031"]) removes that entry even though the second configuration is
still loaded — afterwards the lookup is `none`, so the entry was not left
unchanged. -/
theorem c8_counterexample :
    lookupKV (unload_entry [("SF_18031", newGlobalStopCoordinator "SF" "18031" 60)]
        "SF" ["18031"]) "SF_18031" = Option.none := by
  rfl

/-- Every key an entry references is gone from the registry after the
entry's unload. -/
theorem unload_entry_own (operator : String) (stop_codes : List String)
    (reg : List (String × GlobalStopCoordinator)) (k : String)
    (h : k ∈ stop_codes.map (fun sc => operator ++ "_" ++ sc)) :
    lookupKV (unload_entry reg operator stop_codes) k = Option.none := by
  induction stop_codes generalizing reg with
  | nil => simp at h
  | cons sc rest ih =>
      rw [show unload_entry reg operator (sc :: rest)
          = unload_entry (removeKey reg (operator ++ "_" ++ sc)) operator rest from rfl]
      by_cases hrest : k ∈ rest.map (fun sc => operator ++ "_" ++ sc)
      · exact ih _ hrest
      · simp only [List.map_cons, List.mem_cons] at h
        rcases h with hk | hk
        · rw [unload_entry_other operator rest _ k hrest, hk, lookup_removeKey_self]
        · exact absurd hk hrest

/-- C8, amended: tearing down a configuration entry removes from the
registry exactly its own stops' keys — each key of the unloaded entry is
gone afterwards, regardless of whether other configurations still reference
it, and every key NOT among the unloaded entry's stop keys keeps its exact
binding. -/
theorem c8_unload_scope (reg : List (String × GlobalStopCoordinator))
    (operator : String) (stop_codes : List String) (k : String) :
    (¬ k ∈ stop_codes.map (fun sc => operator ++ "_" ++ sc) →
      lookupKV (unload_entry reg operator stop_codes) k = lookupKV reg k) ∧
    (k ∈ stop_codes.map (fun sc => operator ++ "_" ++ sc) →
      lookupKV (unload_entry reg operator stop_codes) k = Option.none) := by
  exact ⟨unload_entry_other operator stop_codes reg k,
    unload_entry_own operator stop_codes reg k⟩

/-- C8 witness: unloading the entry for SF stop 18031 removes "SF_18031" but
leaves "SF_99999" — a key the entry does not reference — bound exactly as
before. -/
theorem c8_unload_scope_witness :
    lookupKV (unload_entry [("SF_18031", newGlobalStopCoordinator "SF" "18031" 60),
        ("SF_99999", newGlobalStopCoordinator "SF" "99999" 60)] "SF" ["18031"]) "SF_99999"
      = lookupKV [("SF_18031", newGlobalStopCoordinator "SF" "18031" 60),
        ("SF_99999", newGlobalStopCoordinator "SF" "99999" 60)] "SF_99999" ∧
    lookupKV (unload_entry [("SF_18031", newGlobalStopCoordinator "SF" "18031" 60),
        ("SF_99999", newGlobalStopCoordinator "SF" "99999" 60)] "SF" ["18031"]) "SF_18031"
      = Option.none :=
  ⟨(c8_unload_scope [("SF_18031", newGlobalStopCoordinator "SF" "18031" 60),
      ("SF_99999", newGlobalStopCoordinator "SF" "99999" 60)] "SF" ["18031"] "SF_99999").1
      (by decide),
   (c8_unload_scope [("SF_18031", newGlobalStopCoordinator "SF" "18031" 60),
      ("SF_99999", newGlobalStopCoordinator "SF" "99999" 60)] "SF" ["18031"] "SF_18031").2
      (by decide)⟩
